import Mathlib

/-!
bluewand: the device session and notification bridge of `server/main.go`.

A shallow embedding of the server of `anzellai/bluewand` and the properties of
its session, subscription and streaming code.

Conventions of the embedding.

* A Go `byte` is a `Fin 256`; a `[]byte` is a `List GoByte`.
* The BLE client `wk.cln` (an interface value of `github.com/go-ble/ble`) is a
  deterministic environment: the error it answers to a request may depend on
  the request and on every request made before, and each request is appended
  to a log.  The streaming side of the RPC (`stream.Send`) is modelled the same
  way.
* A Go function either returns, panics (runtime fault) or ends the process
  (`os.Exit`, which logrus `Fatalf` calls with status 1).  All three keep the
  state reached.
* Log lines are not part of the state; only the process exit of `Fatalf` is.
* The delivery channel `ch` of a stream is represented by the list of payloads
  received from it before it is closed.
-/

namespace BlueWand

/-! ## Go values -/

/-- Go `byte`. -/
abbrev GoByte := Fin 256

/-- Go `error` values met by the server: the ones it builds itself with
`errors.New`, and the ones handed back by `stream.Send`. -/
inductive GoError where
  | errorsNew (msg : String)
  | fromSend (e : String)
  deriving DecidableEq, Repr

/-- How a Go function ends: it returns a value, panics, or the process exits. -/
inductive Res (σ : Type) (α : Type) where
  | ret (a : α) (s : σ)
  | panic (s : σ)
  | exit (code : Int) (s : σ)

/-- State reached when the function ended. -/
def Res.state {σ α : Type} : Res σ α → σ
  | .ret _ s => s
  | .panic s => s
  | .exit _ s => s

/-! ## The parts of `github.com/go-ble/ble` the server uses -/

/-- Type `ble.UUID`, declared `type UUID []byte`; the bytes are stored in
little-endian order (reversed with respect to the printed form). -/
abbrev UUID := List GoByte

/-- Method `UUID.Equal`: `bytes.Equal(u, v)`. -/
def UUID.Equal (u v : UUID) : Bool := decide (u = v)

/-- UTF-8 encoding of one character, the bytes a Go string holds for it. -/
def utf8Bytes (c : Char) : List GoByte :=
  let n := c.toNat
  if n < 0x80 then [Fin.ofNat n]
  else if n < 0x800 then [Fin.ofNat (0xC0 + n / 64), Fin.ofNat (0x80 + n % 64)]
  else if n < 0x10000 then
    [Fin.ofNat (0xE0 + n / 4096), Fin.ofNat (0x80 + n / 64 % 64), Fin.ofNat (0x80 + n % 64)]
  else
    [Fin.ofNat (0xF0 + n / 262144), Fin.ofNat (0x80 + n / 4096 % 64),
      Fin.ofNat (0x80 + n / 64 % 64), Fin.ofNat (0x80 + n % 64)]

/-- Conversion `ble.UUID(s)` of a Go string `s`: since `UUID` is `[]byte`, the
result is the bytes of the string itself (no hexadecimal parsing). -/
def UUID.ofString (s : String) : UUID := s.data.flatMap utf8Bytes

/-- Digit of `%x`. -/
def hexDigit (n : Nat) : Char :=
  if n < 10 then Char.ofNat (48 + n) else Char.ofNat (87 + n)

/-- Two lower-case hexadecimal digits of a byte, as `%x` prints it. -/
def hexByte (b : GoByte) : List Char := [hexDigit (b.val / 16), hexDigit (b.val % 16)]

/-- Method `UUID.String`: `fmt.Sprintf("%x", Reverse(u))`. -/
def UUID.String (u : UUID) : String := String.mk (u.reverse.flatMap hexByte)

/-- Value of one hexadecimal digit, either case. -/
def hexVal (c : Char) : Option Nat :=
  if 48 ≤ c.toNat ∧ c.toNat ≤ 57 then some (c.toNat - 48)
  else if 97 ≤ c.toNat ∧ c.toNat ≤ 102 then some (c.toNat - 87)
  else if 65 ≤ c.toNat ∧ c.toNat ≤ 70 then some (c.toNat - 55)
  else none

/-- Function `hex.DecodeString` on a list of characters. -/
def hexDecode : List Char → Option (List GoByte)
  | [] => some []
  | [_] => none
  | a :: b :: rest =>
    match hexVal a, hexVal b, hexDecode rest with
    | some x, some y, some bs => some (Fin.ofNat (x * 16 + y) :: bs)
    | _, _, _ => none

/-- Function `ble.Parse`: dashes removed, hexadecimal decoded, length 2 or 16
bytes, stored reversed. -/
def Parse (s : String) : Option UUID :=
  match hexDecode (s.data.filter (fun c => c != '-')) with
  | some bs => if bs.length = 2 ∨ bs.length = 16 then some bs.reverse else none
  | none => none

/-- Function `ble.UUID16`: the two bytes of a 16-bit number, low byte first. -/
def UUID16 (i : Nat) : UUID := [Fin.ofNat (i % 256), Fin.ofNat (i / 256 % 256)]

/-- Constant `ble.ServiceChangedUUID = UUID16(0x2A05)`. -/
def ServiceChangedUUID : UUID := UUID16 0x2A05

/-- Constant `ble.CharNotify`, the notify bit of a characteristic's property. -/
def CharNotify : Nat := 0x10

/-- Type `ble.Descriptor` (fields read by the server). -/
structure Descriptor where
  UUID : UUID
  Handle : Nat
  deriving DecidableEq, Repr

/-- Type `ble.Characteristic` (fields read by the server). -/
structure Characteristic where
  UUID : UUID
  Property : Nat
  Handle : Nat
  ValueHandle : Nat
  Descriptors : List Descriptor
  deriving DecidableEq, Repr

/-- Type `ble.Service`. -/
structure Service where
  UUID : UUID
  Handle : Nat
  Characteristics : List Characteristic
  deriving DecidableEq, Repr

/-- Type `ble.Profile`. -/
structure Profile where
  Services : List Service
  deriving DecidableEq, Repr

/-- A request made to the BLE client `wk.cln`. -/
inductive Call where
  | subscribe (c : Characteristic) (ind : Bool)
  | unsubscribe (c : Characteristic) (ind : Bool)
  | readDescriptor (d : Descriptor)
  | cancelConnection
  deriving DecidableEq, Repr

/-- The BLE client: `respond` is the error it returns (`none` for `nil`) to a
request given the requests made so far, `calls` the requests made so far. -/
structure Client where
  respond : List Call → Call → Option String
  calls : List Call

/-! ## Constants of `server/main.go` -/

def BleUUIDIOUserButtonChar : String := "64a7000df6914b93a6f40968f5b648f8"

def BleUUIDSensorQuaternionsChar : String := "64a70002f6914b93a6f40968f5b648f8"

/-! ## `WandKit` -/

/-- Struct `WandKit`; `device`, `logger` and `duration` play no part in the
operations below.  A `nil` pointer is `none`. -/
structure WandKit where
  cln : Option Client
  p : Option Profile
  button : Bool
  subscriptions : List (Option Characteristic)

/-- A method call on `wk.cln`: a nil client panics, otherwise the request is
logged and answered. -/
def WandKit.clnCall (wk : WandKit) (c : Call) : Res WandKit (Option String) :=
  match wk.cln with
  | none => .panic wk
  | some cl =>
    .ret (cl.respond cl.calls c)
      { wk with cln := some { cl with calls := cl.calls ++ [c] } }

/-- Predicate `unicode.IsSpace`. -/
def isSpace (c : Char) : Bool :=
  let n := c.toNat
  (9 ≤ n && n ≤ 13) || n == 0x20 || n == 0x85 || n == 0xA0 || n == 0x1680 ||
  (0x2000 ≤ n && n ≤ 0x200A) || n == 0x2028 || n == 0x2029 || n == 0x202F ||
  n == 0x205F || n == 0x3000

/-- Function `strings.TrimSpace`. -/
def TrimSpace (s : List Char) : List Char :=
  ((s.dropWhile isSpace).reverse.dropWhile isSpace).reverse

/-- Function `strings.ToLower`, on the ASCII letters (the only letters `%x`
can print). -/
def ToLower (s : List Char) : List Char := s.map Char.toLower

/-- Line 226: `strings.ToLower(strings.TrimSpace(fmt.Sprintf("%s", c.UUID)))`. -/
def charUUID (c : Characteristic) : String :=
  String.mk (ToLower (TrimSpace (UUID.String c.UUID).data))

/-- Second check of the inner loop (lines 233 and 241): the characteristic is
Service Changed or the reserved Apple characteristic. `none` stands for the
panic of `ble.MustParse` on a string that is not a UUID. -/
def denylisted (c : Characteristic) : Option Bool :=
  if UUID.Equal c.UUID ServiceChangedUUID then some true
  else
    match Parse "8667556C9A374C9184ED54EE27D90049" with
    | none => none
    | some u => some (UUID.Equal c.UUID u)

/-- Lines 253-267 of `Subscribe`: every descriptor of the characteristic is
read; a read error is logged and the loop goes on. -/
def readDescriptors (wk : WandKit) : List Descriptor → Res WandKit Unit
  | [] => .ret () wk
  | d :: ds =>
    match wk.clnCall (.readDescriptor d) with
    | .ret _ wk1 => readDescriptors wk1 ds
    | .panic w => .panic w
    | .exit n w => .exit n w

/-- Lines 245-251 of `Subscribe`: a notifying characteristic is subscribed
(notification, not indication) and appended to `wk.subscriptions`; an error of
the client ends the process through `Fatalf`. -/
def subscribeNotify (wk : WandKit) (c : Characteristic) : Res WandKit Unit :=
  if c.Property &&& CharNotify ≠ 0 then
    match wk.clnCall (.subscribe c false) with
    | .ret (some _) wk1 => .exit 1 wk1
    | .ret none wk1 => .ret () { wk1 with subscriptions := wk1.subscriptions ++ [some c] }
    | .panic w => .panic w
    | .exit n w => .exit n w
  else .ret () wk

/-- Body of the inner loop of `Subscribe` (lines 217-267) for one
characteristic. -/
def subscribeChar (wk : WandKit) (uid : String) (c : Characteristic) : Res WandKit Unit :=
  if charUUID c ≠ uid then .ret () wk
  else
    match denylisted c with
    | none => .panic wk
    | some true => .ret () wk
    | some false =>
      match subscribeNotify wk c with
      | .ret _ wk1 => readDescriptors wk1 c.Descriptors
      | .panic w => .panic w
      | .exit n w => .exit n w

/-- Inner loop of `Subscribe`: `for _, c := range s.Characteristics`. -/
def subscribeChars (wk : WandKit) (uid : String) : List Characteristic → Res WandKit Unit
  | [] => .ret () wk
  | c :: cs =>
    match subscribeChar wk uid c with
    | .ret _ wk1 => subscribeChars wk1 uid cs
    | .panic w => .panic w
    | .exit n w => .exit n w

/-- Outer loop of `Subscribe`: `for _, s := range wk.p.Services`. -/
def subscribeServices (wk : WandKit) (uid : String) : List Service → Res WandKit Unit
  | [] => .ret () wk
  | s :: ss =>
    match subscribeChars wk uid s.Characteristics with
    | .ret _ wk1 => subscribeServices wk1 uid ss
    | .panic w => .panic w
    | .exit n w => .exit n w

/-- Method `WandKit.Subscribe(uid, ch)`; reading `wk.p.Services` through a nil
`wk.p` panics. -/
def WandKit.Subscribe (wk : WandKit) (uid : String) : Res WandKit Unit :=
  match wk.p with
  | none => .panic wk
  | some prof => subscribeServices wk uid prof.Services

/-- Loop of `Unsubscribe` over the subscriptions still to visit: nil entries
are skipped, an entry whose UUID `Equal`s `ble.UUID(uid)` is unsubscribed
(with the indication flag `true`), and an error of the client is only logged. -/
def unsubscribeLoop (wk : WandKit) (uid : String) :
    List (Option Characteristic) → Res WandKit Unit
  | [] => .ret () wk
  | none :: cs => unsubscribeLoop wk uid cs
  | some c :: cs =>
    if UUID.Equal c.UUID (UUID.ofString uid) then
      match wk.clnCall (.unsubscribe c true) with
      | .ret _ wk1 => unsubscribeLoop wk1 uid cs
      | .panic w => .panic w
      | .exit n w => .exit n w
    else unsubscribeLoop wk uid cs

/-- Method `WandKit.Unsubscribe(uid)`. -/
def WandKit.Unsubscribe (wk : WandKit) (uid : String) : Res WandKit Unit :=
  unsubscribeLoop wk uid wk.subscriptions

/-- Loop of the signal handler (lines 108-121): every non-nil subscription is
unsubscribed; an error of the client ends the process through `Fatalf`. -/
def shutdownLoop (wk : WandKit) : List (Option Characteristic) → Res WandKit Unit
  | [] => .ret () wk
  | none :: cs => shutdownLoop wk cs
  | some c :: cs =>
    match wk.clnCall (.unsubscribe c false) with
    | .ret (some _) wk1 => .exit 1 wk1
    | .ret none wk1 => shutdownLoop wk1 cs
    | .panic w => .panic w
    | .exit n w => .exit n w

/-- Lines 123-133 of the signal handler: the connection is cancelled and the
process exits with status 0, or -1 when the cancellation fails.  The deferred
function, which clears `wk.cln` and `wk.p`, runs only when the handler panics:
`os.Exit` does not run deferred functions. -/
def shutdownDisconnect (wk : WandKit) : Res WandKit Unit :=
  match wk.clnCall .cancelConnection with
  | .ret (some _) wk1 => .exit (-1) wk1
  | .ret none wk1 => .exit 0 wk1
  | .panic w => .panic { w with cln := none, p := none }
  | .exit n w => .exit n w

/-- The signal handler started by `New` (lines 105-134), from the moment the
signal is received. -/
def signalHandler (wk : WandKit) : Res WandKit Unit :=
  let r :=
    if wk.p.isSome ∧ wk.subscriptions.length > 0 then shutdownLoop wk wk.subscriptions
    else .ret () wk
  match r with
  | .ret _ wk1 => shutdownDisconnect wk1
  | .panic w => .panic w
  | .exit n w => .exit n w

/-- Function `ToUint32(a, b)`: `uint32(a)<<8 | uint32(b)`. -/
def ToUint32 (a b : GoByte) : Nat := ((a.val <<< 8) % 2 ^ 32) ||| b.val

/-! ## The RPC server -/

/-- Message `pb.Identifier`. -/
structure Identifier where
  Uid : String
  deriving DecidableEq, Repr

/-- Message `pb.ButtonMessage`. -/
structure ButtonMessage where
  Pressed : Bool
  deriving DecidableEq, Repr

/-- Message `pb.MotionMessage`; the four fields are `uint32`. -/
structure MotionMessage where
  W : Nat
  X : Nat
  Y : Nat
  Z : Nat
  deriving DecidableEq, Repr

/-- The sending side of a server stream: `respond` is the error `Send` returns
(`none` for `nil`) for a message given the messages handed to `Send` before,
`sent` the messages handed to `Send` so far. -/
structure ServerStream (μ : Type) where
  respond : List μ → μ → Option String
  sent : List μ

/-- State of the stream after `Send(m)`. -/
def ServerStream.push {μ : Type} (st : ServerStream μ) (m : μ) : ServerStream μ :=
  { st with sent := st.sent ++ [m] }

/-- What a streaming handler leaves behind: the `WandKit` and the stream. -/
structure Session (μ : Type) where
  wk : WandKit
  stream : ServerStream μ

/-- Struct `blueWandServer`. -/
structure blueWandServer where
  identifer : Identifier
  wk : WandKit

/-- Method `OnConnect`: the identifier of the server and a nil error. -/
def blueWandServer.OnConnect (s : blueWandServer) : Identifier × Option GoError :=
  (s.identifer, none)

/-- The error of lines 347 and 364. -/
def mismatch : GoError := .errorsNew "mis-matched device identifier"

/-- Lifts the end of a `WandKit` method into a handler when the handler has
nothing more to do than propagate it. -/
def liftWk {μ : Type} (stream : ServerStream μ) (e : Option GoError) :
    Res WandKit Unit → Res (Session μ) (Option GoError)
  | .ret _ w => .ret e ⟨w, stream⟩
  | .panic w => .panic ⟨w, stream⟩
  | .exit n w => .exit n ⟨w, stream⟩

/-- Loop of `OnButton` (lines 351-358) over the payloads received from `ch`
until it is closed.  Indexing `data[0]` of an empty payload panics. -/
def buttonLoop (wk : WandKit) (stream : ServerStream ButtonMessage) :
    List (List GoByte) → Res (Session ButtonMessage) (Option GoError)
  | [] => .ret none ⟨wk, stream⟩
  | data :: rest =>
    match (data[0]? : Option GoByte) with
    | none => .panic ⟨wk, stream⟩
    | some b =>
      let wk1 := { wk with button := decide (b = 1) }
      let msg : ButtonMessage := ⟨wk1.button⟩
      match stream.respond stream.sent msg with
      | some err =>
        liftWk (stream.push msg) (some (.fromSend err)) (wk1.Unsubscribe BleUUIDIOUserButtonChar)
      | none => buttonLoop wk1 (stream.push msg) rest

/-- Method `OnButton`, with the payloads its channel delivers before closing. -/
def blueWandServer.OnButton (s : blueWandServer) (identifier : Identifier)
    (stream : ServerStream ButtonMessage) (arrivals : List (List GoByte)) :
    Res (Session ButtonMessage) (Option GoError) :=
  if identifier.Uid ≠ s.identifer.Uid then .ret (some mismatch) ⟨s.wk, stream⟩
  else
    match s.wk.Subscribe BleUUIDIOUserButtonChar with
    | .ret _ wk1 => buttonLoop wk1 stream arrivals
    | .panic w => .panic ⟨w, stream⟩
    | .exit n w => .exit n ⟨w, stream⟩

/-- Lines 369-373 of `OnMotion`: the message built from one payload; an index
out of range (`none`) panics. -/
def motionMessage (data : List GoByte) : Option MotionMessage :=
  match data[0]?, data[1]?, data[2]?, data[3]?, data[4]?, data[5]?, data[6]?, data[7]? with
  | some b0, some b1, some b2, some b3, some b4, some b5, some b6, some b7 =>
    some ⟨ToUint32 b0 b1, ToUint32 b2 b3, ToUint32 b4 b5, ToUint32 b6 b7⟩
  | _, _, _, _, _, _, _, _ => none

/-- Loop of `OnMotion` (lines 368-377) over the payloads received from `ch`
until it is closed. -/
def motionLoop (wk : WandKit) (stream : ServerStream MotionMessage) :
    List (List GoByte) → Res (Session MotionMessage) (Option GoError)
  | [] => .ret none ⟨wk, stream⟩
  | data :: rest =>
    match motionMessage data with
    | none => .panic ⟨wk, stream⟩
    | some msg =>
      match stream.respond stream.sent msg with
      | some err =>
        liftWk (stream.push msg) (some (.fromSend err))
          (wk.Unsubscribe BleUUIDSensorQuaternionsChar)
      | none => motionLoop wk (stream.push msg) rest

/-- Method `OnMotion`, with the payloads its channel delivers before closing. -/
def blueWandServer.OnMotion (s : blueWandServer) (identifier : Identifier)
    (stream : ServerStream MotionMessage) (arrivals : List (List GoByte)) :
    Res (Session MotionMessage) (Option GoError) :=
  if identifier.Uid ≠ s.identifer.Uid then .ret (some mismatch) ⟨s.wk, stream⟩
  else
    match s.wk.Subscribe BleUUIDSensorQuaternionsChar with
    | .ret _ wk1 => motionLoop wk1 stream arrivals
    | .panic w => .panic ⟨w, stream⟩
    | .exit n w => .exit n ⟨w, stream⟩

/-! ## Vocabulary of the statements -/

/-- Characteristics of a profile in the order `Subscribe` visits them. -/
def Profile.chars (p : Profile) : List Characteristic :=
  p.Services.flatMap (fun s => s.Characteristics)

/-- The UUID `ble.MustParse("8667556C9A374C9184ED54EE27D90049")`, as stored. -/
def reservedUUID : UUID :=
  [0x49, 0x00, 0xD9, 0x27, 0xEE, 0x54, 0xED, 0x84, 0x91, 0x4C, 0x37, 0x9A, 0x6C, 0x55, 0x67, 0x86]

/-- The first two tests of `Subscribe`: the printed UUID is the requested one,
and the characteristic is not on the denylist. -/
def eligible (uid : String) (c : Characteristic) : Bool :=
  decide (UUID.String c.UUID = uid) && decide (c.UUID ≠ ServiceChangedUUID) &&
    decide (c.UUID ≠ reservedUUID)

/-- The three tests of `Subscribe`: UUID, denylist and notify bit. -/
def selected (uid : String) (c : Characteristic) : Bool :=
  eligible uid c && decide (c.Property &&& CharNotify ≠ 0)

/-- Requests `Subscribe` makes to the client for one characteristic when
every registration is accepted. -/
def charTrace (uid : String) (c : Characteristic) : List Call :=
  if eligible uid c then
    (if c.Property &&& CharNotify ≠ 0 then [Call.subscribe c false] else []) ++
      c.Descriptors.map Call.readDescriptor
  else []

/-- Characteristics for which the client was asked to register a callback. -/
def registrations (calls : List Call) : List Characteristic :=
  calls.filterMap (fun k => match k with
    | .subscribe c _ => some c
    | _ => none)

/-- Successive calls of `Subscribe`, one for each requested UUID. -/
def subscribeSeq (wk : WandKit) : List String → Res WandKit Unit
  | [] => .ret () wk
  | u :: us =>
    match wk.Subscribe u with
    | .ret _ wk1 => subscribeSeq wk1 us
    | .panic w => .panic w
    | .exit n w => .exit n w

/-- The stream accepts (`Send` returns nil for) each of the messages, sent one
after the other. -/
def ServerStream.accepts {μ : Type} (st : ServerStream μ) : List μ → Bool
  | [] => true
  | m :: ms => (st.respond st.sent m).isNone && (st.push m).accepts ms

/-- The stream after the messages were handed to `Send`. -/
def ServerStream.pushAll {μ : Type} (st : ServerStream μ) (ms : List μ) : ServerStream μ :=
  { st with sent := st.sent ++ ms }

/-- Translation of a button payload with a first byte. -/
def buttonMessage (data : List GoByte) : ButtonMessage :=
  ⟨decide (data.head? = some 1)⟩

/-- Value of `wk.button` after the loop of `OnButton` went through the payloads. -/
def lastButton (b : Bool) : List (List GoByte) → Bool
  | [] => b
  | d :: ds => lastButton (buttonMessage d).Pressed ds

/-- The `WandKit` that `Subscribe(uid)` leaves on a connected session whose
client accepts registrations. -/
def afterSubscribe (r : List Call → Call → Option String) (calls : List Call)
    (prof : Profile) (b : Bool) (subs : List (Option Characteristic)) (uid : String) :
    WandKit :=
  ⟨some ⟨r, calls ++ prof.chars.flatMap (charTrace uid)⟩, some prof, b,
    subs ++ (prof.chars.filter (selected uid)).map some⟩

/-- Requests `Unsubscribe(uid)` makes to the client for the recorded
subscriptions. -/
def unsubscribeTrace (uid : String) (subs : List (Option Characteristic)) : List Call :=
  ((subs.filterMap id).filter (fun c => UUID.Equal c.UUID (UUID.ofString uid))).map
    (fun c => Call.unsubscribe c true)

/-- How a run ended, without the state. -/
inductive Ending (α : Type) where
  | returned (a : α)
  | panicked
  | exited (code : Int)
  deriving DecidableEq, Repr

/-- How a run ended. -/
def Res.ending {σ α : Type} : Res σ α → Ending α
  | .ret a _ => .returned a
  | .panic _ => .panicked
  | .exit n _ => .exited n

/-- Log of the client of a `WandKit`, empty when there is no client. -/
def WandKit.log (wk : WandKit) : List Call :=
  match wk.cln with
  | none => []
  | some cl => cl.calls

/-! ## Sample sessions -/

/-- The user button characteristic `64a7000df6914b93a6f40968f5b648f8`, notifying. -/
def buttonChr : Characteristic :=
  { UUID := [0xf8, 0x48, 0xb6, 0xf5, 0x68, 0x09, 0xf4, 0xa6, 0x93, 0x4b, 0x91, 0xf6,
      0x0d, 0x00, 0xa7, 0x64],
    Property := 0x10, Handle := 0x20, ValueHandle := 0x21,
    Descriptors := [⟨[0x02, 0x29], 0x22⟩] }

/-- The quaternions characteristic `64a70002f6914b93a6f40968f5b648f8`, notifying. -/
def quaternionsChr : Characteristic :=
  { UUID := [0xf8, 0x48, 0xb6, 0xf5, 0x68, 0x09, 0xf4, 0xa6, 0x93, 0x4b, 0x91, 0xf6,
      0x02, 0x00, 0xa7, 0x64],
    Property := 0x10, Handle := 0x30, ValueHandle := 0x31,
    Descriptors := [] }

/-- The battery characteristic `64a70007f6914b93a6f40968f5b648f8`, readable and
notifying. -/
def batteryChr : Characteristic :=
  { UUID := [0xf8, 0x48, 0xb6, 0xf5, 0x68, 0x09, 0xf4, 0xa6, 0x93, 0x4b, 0x91, 0xf6,
      0x07, 0x00, 0xa7, 0x64],
    Property := 0x12, Handle := 0x24, ValueHandle := 0x25,
    Descriptors := [] }

/-- A profile with the IO service and the sensor service of the wand. -/
def wandProfile : Profile :=
  { Services :=
      [ { UUID := [0xf8, 0x48, 0xb6, 0xf5, 0x68, 0x09, 0xf4, 0xa6, 0x93, 0x4b, 0x91, 0xf6,
            0x12, 0x00, 0xa7, 0x64],
          Handle := 0x1f, Characteristics := [batteryChr, buttonChr] },
        { UUID := [0xf8, 0x48, 0xb6, 0xf5, 0x68, 0x09, 0xf4, 0xa6, 0x93, 0x4b, 0x91, 0xf6,
            0x11, 0x00, 0xa7, 0x64],
          Handle := 0x2f, Characteristics := [quaternionsChr] } ] }

/-- A client that accepts every request. -/
def acceptAll : List Call → Call → Option String := fun _ _ => none

/-- A client that refuses every request. -/
def refuseAll : List Call → Call → Option String := fun _ _ => some "att: timeout"

/-- A connected `WandKit` with no subscription yet. -/
def freshKit : WandKit :=
  { cln := some ⟨acceptAll, []⟩, p := some wandProfile, button := false, subscriptions := [] }

/-- A connected `WandKit` whose client refuses every request, with the button
and the quaternions characteristics recorded as subscribed. -/
def brokenKit : WandKit :=
  { cln := some ⟨refuseAll, []⟩, p := some wandProfile, button := false,
    subscriptions := [some buttonChr, some quaternionsChr] }

/-- A connected `WandKit` whose client accepts every request, with the button
characteristic recorded as subscribed. -/
def subscribedKit : WandKit :=
  { cln := some ⟨acceptAll, []⟩, p := some wandProfile, button := false,
    subscriptions := [some buttonChr] }

/-- Requests the signal handler makes to the client for the recorded
subscriptions when each is accepted. -/
def shutdownTrace (subs : List (Option Characteristic)) : List Call :=
  (subs.filterMap id).map (fun c => Call.unsubscribe c false)

/-- Characteristics the client was asked to unsubscribe. -/
def unsubscriptions (calls : List Call) : List Characteristic :=
  calls.filterMap (fun k => match k with
    | .unsubscribe c _ => some c
    | _ => none)

/-- The client, whose log is `calls`, answers nil to each of the requests `ks`
made one after the other. -/
def acceptsCalls (r : List Call → Call → Option String) (calls : List Call) :
    List Call → Bool
  | [] => true
  | k :: ks => (r calls k).isNone && acceptsCalls r (calls ++ [k]) ks

/-- A client whose second answer is an error, whatever the request. -/
def failsSecond : List Call → Call → Option String :=
  fun h _ => if h.length = 1 then some "att: timeout" else none

/-- A server on the fresh session. -/
def wandServer : blueWandServer :=
  { identifer := ⟨"e4:5f:01:aa:bb:cc"⟩, wk := freshKit }

/-- A stream whose `Send` always succeeds. -/
def openStream (μ : Type) : ServerStream μ := ⟨fun _ _ => none, []⟩

/-- A stream whose second `Send` fails. -/
def droppingStream (μ : Type) : ServerStream μ :=
  ⟨fun h _ => if h.length = 1 then some "transport is closing" else none, []⟩

/-! ## Facts about the library model -/

theorem parse_reserved : Parse "8667556C9A374C9184ED54EE27D90049" = some reservedUUID := by
  decide

theorem hexDigit_plain : ∀ n, n < 16 →
    isSpace (hexDigit n) = false ∧ (hexDigit n).toLower = hexDigit n := by
  decide

theorem hexByte_plain (b : GoByte) :
    ∀ c ∈ hexByte b, isSpace c = false ∧ c.toLower = c := by
  intro c hc
  simp only [hexByte, List.mem_cons, List.mem_singleton, List.not_mem_nil, or_false] at hc
  rcases hc with rfl | rfl
  · exact hexDigit_plain _ (by omega)
  · exact hexDigit_plain _ (by omega)

theorem dropWhile_none {α : Type} (p : α → Bool) (l : List α) (h : ∀ a ∈ l, p a = false) :
    l.dropWhile p = l := by
  cases l with
  | nil => rfl
  | cons a t => simp [List.dropWhile, h a (List.mem_cons_self a t)]

/-- On the text `%x` prints, `TrimSpace` and `ToLower` change nothing: the
string `Subscribe` compares with `uid` is the printed UUID. -/
theorem charUUID_eq (c : Characteristic) : charUUID c = UUID.String c.UUID := by
  have hall : ∀ x ∈ (c.UUID.reverse.flatMap hexByte), isSpace x = false ∧ x.toLower = x := by
    intro x hx
    rcases List.mem_flatMap.1 hx with ⟨b, _, hb⟩
    exact hexByte_plain b x hb
  have h1 : TrimSpace (c.UUID.reverse.flatMap hexByte) = c.UUID.reverse.flatMap hexByte := by
    unfold TrimSpace
    rw [dropWhile_none _ _ (fun a ha => (hall a ha).1)]
    rw [dropWhile_none _ _ (fun a ha => (hall a (List.mem_reverse.1 ha)).1)]
    simp
  have h2 : ToLower (c.UUID.reverse.flatMap hexByte) = c.UUID.reverse.flatMap hexByte := by
    unfold ToLower
    conv => rhs; rw [← List.map_id (c.UUID.reverse.flatMap hexByte)]
    exact List.map_congr_left (fun a ha => (hall a ha).2)
  simp only [charUUID, UUID.String, h1, h2]

theorem denylisted_eq (c : Characteristic) :
    denylisted c =
      some (decide (c.UUID = ServiceChangedUUID) || decide (c.UUID = reservedUUID)) := by
  unfold denylisted
  rw [parse_reserved]
  by_cases h : c.UUID = ServiceChangedUUID
  · simp [UUID.Equal, h]
  · simp [UUID.Equal, h]

/-! ## `Subscribe` -/

theorem readDescriptors_ok (r : List Call → Call → Option String) (p : Option Profile)
    (b : Bool) (subs : List (Option Characteristic)) (ds : List Descriptor) :
    ∀ calls, readDescriptors ⟨some ⟨r, calls⟩, p, b, subs⟩ ds =
      .ret () ⟨some ⟨r, calls ++ ds.map Call.readDescriptor⟩, p, b, subs⟩ := by
  induction ds with
  | nil => intro calls; simp [readDescriptors]
  | cons d ds ih =>
    intro calls
    simp [readDescriptors, WandKit.clnCall, ih]

theorem subscribeChar_ok (r : List Call → Call → Option String)
    (hacc : ∀ h c, r h (Call.subscribe c false) = none) (p : Option Profile)
    (b : Bool) (subs : List (Option Characteristic)) (uid : String) (c : Characteristic)
    (calls : List Call) :
    subscribeChar ⟨some ⟨r, calls⟩, p, b, subs⟩ uid c =
      .ret () ⟨some ⟨r, calls ++ charTrace uid c⟩, p, b,
        subs ++ (if selected uid c then [some c] else [])⟩ := by
  unfold subscribeChar
  rw [charUUID_eq, denylisted_eq]
  by_cases h1 : UUID.String c.UUID = uid
  · by_cases h2 : c.UUID = ServiceChangedUUID
    · simp [h1, h2, charTrace, eligible, selected]
    · by_cases h3 : c.UUID = reservedUUID
      · simp [h1, h3, charTrace, eligible, selected]
      · by_cases h4 : c.Property &&& CharNotify = 0
        · simp [h1, h2, h3, h4, charTrace, eligible, selected, subscribeNotify,
            readDescriptors_ok]
        · simp [h1, h2, h3, h4, charTrace, eligible, selected, subscribeNotify,
            WandKit.clnCall, hacc, readDescriptors_ok]
  · simp [h1, charTrace, eligible, selected]

theorem subscribeChars_ok (r : List Call → Call → Option String)
    (hacc : ∀ h c, r h (Call.subscribe c false) = none) (p : Option Profile)
    (b : Bool) (uid : String) (cs : List Characteristic) :
    ∀ calls subs, subscribeChars ⟨some ⟨r, calls⟩, p, b, subs⟩ uid cs =
      .ret () ⟨some ⟨r, calls ++ cs.flatMap (charTrace uid)⟩, p, b,
        subs ++ (cs.filter (selected uid)).map some⟩ := by
  induction cs with
  | nil => intro calls subs; simp [subscribeChars]
  | cons c cs ih =>
    intro calls subs
    simp only [subscribeChars, subscribeChar_ok r hacc, ih]
    by_cases h : selected uid c <;> simp [h, List.filter_cons]

theorem subscribeServices_ok (r : List Call → Call → Option String)
    (hacc : ∀ h c, r h (Call.subscribe c false) = none) (p : Option Profile)
    (b : Bool) (uid : String) (ss : List Service) :
    ∀ calls subs, subscribeServices ⟨some ⟨r, calls⟩, p, b, subs⟩ uid ss =
      .ret ()
        ⟨some ⟨r, calls ++ (ss.flatMap (fun s => s.Characteristics)).flatMap (charTrace uid)⟩,
          p, b,
          subs ++ ((ss.flatMap (fun s => s.Characteristics)).filter (selected uid)).map some⟩ := by
  induction ss with
  | nil => intro calls subs; simp [subscribeServices]
  | cons s ss ih =>
    intro calls subs
    simp only [subscribeServices, subscribeChars_ok r hacc, ih]
    simp [List.flatMap_cons, List.flatMap_append, List.filter_append]

/-- With a client that accepts registrations, `Subscribe` returns, having
asked for the requests of `charTrace` and recorded the selected
characteristics. -/
theorem Subscribe_ok (r : List Call → Call → Option String)
    (hacc : ∀ h c, r h (Call.subscribe c false) = none) (prof : Profile)
    (b : Bool) (uid : String) (calls : List Call) (subs : List (Option Characteristic)) :
    WandKit.Subscribe ⟨some ⟨r, calls⟩, some prof, b, subs⟩ uid =
      .ret () ⟨some ⟨r, calls ++ prof.chars.flatMap (charTrace uid)⟩, some prof, b,
        subs ++ (prof.chars.filter (selected uid)).map some⟩ := by
  simp only [WandKit.Subscribe, Profile.chars, subscribeServices_ok r hacc]

theorem registrations_append (a b : List Call) :
    registrations (a ++ b) = registrations a ++ registrations b := by
  simp [registrations, List.filterMap_append]

theorem registrations_readDescriptor (ds : List Descriptor) :
    registrations (ds.map Call.readDescriptor) = [] := by
  induction ds with
  | nil => rfl
  | cons d ds ih => simp [registrations]

theorem registrations_charTrace (uid : String) (c : Characteristic) :
    registrations (charTrace uid c) = if selected uid c then [c] else [] := by
  unfold charTrace selected
  cases eligible uid c with
  | false => simp [registrations]
  | true =>
    by_cases h4 : c.Property &&& CharNotify = 0
    · simp [h4, registrations_readDescriptor]
    · simp only [if_true, if_pos h4, registrations_append, registrations_readDescriptor]
      simp [h4, registrations]

theorem registrations_trace (uid : String) (cs : List Characteristic) :
    registrations (cs.flatMap (charTrace uid)) = cs.filter (selected uid) := by
  induction cs with
  | nil => rfl
  | cons c cs ih =>
    simp only [List.flatMap_cons, registrations_append, registrations_charTrace, ih]
    by_cases h : selected uid c <;> simp [h, List.filter_cons]

theorem selected_iff (uid : String) (c : Characteristic) :
    selected uid c = true ↔
      UUID.String c.UUID = uid ∧ c.UUID ≠ ServiceChangedUUID ∧ c.UUID ≠ reservedUUID ∧
        c.Property &&& CharNotify ≠ 0 := by
  simp [selected, eligible, and_assoc]

/-- C10: on a connected session whose client accepts registrations, for every
profile and requested UUID, `Subscribe` returns; the characteristics it
registered a callback for and the entries it appended to the subscription list
are, in profile order, exactly the characteristics whose printed UUID is the
requested one, that are neither Service Changed nor the reserved UUID, and
whose property has the notify bit. -/
theorem Subscribe_registers_exactly_selected (r : List Call → Call → Option String)
    (hacc : ∀ h c, r h (Call.subscribe c false) = none) (prof : Profile)
    (b : Bool) (uid : String) (calls : List Call) (subs : List (Option Characteristic)) :
    ∃ wk1 new,
      WandKit.Subscribe ⟨some ⟨r, calls⟩, some prof, b, subs⟩ uid = .ret () wk1 ∧
      wk1.log = calls ++ prof.chars.flatMap (charTrace uid) ∧
      registrations wk1.log = registrations calls ++ new ∧
      wk1.subscriptions = subs ++ new.map some ∧
      new = prof.chars.filter (selected uid) ∧
      ∀ c, c ∈ new ↔
        c ∈ prof.chars ∧ UUID.String c.UUID = uid ∧ c.UUID ≠ ServiceChangedUUID ∧
          c.UUID ≠ reservedUUID ∧ c.Property &&& CharNotify ≠ 0 := by
  refine ⟨_, prof.chars.filter (selected uid), Subscribe_ok r hacc prof b uid calls subs,
    rfl, ?_, rfl, rfl, ?_⟩
  · simp [WandKit.log, registrations_append, registrations_trace]
  · intro c
    rw [List.mem_filter, selected_iff]

theorem Subscribe_registers_exactly_selected_witness :
    ∃ wk1 new,
      WandKit.Subscribe ⟨some ⟨acceptAll, []⟩, some wandProfile, false, []⟩
        BleUUIDIOUserButtonChar = .ret () wk1 ∧
      wk1.log = [] ++ wandProfile.chars.flatMap (charTrace BleUUIDIOUserButtonChar) ∧
      registrations wk1.log = registrations [] ++ new ∧
      wk1.subscriptions = [] ++ new.map some ∧
      new = wandProfile.chars.filter (selected BleUUIDIOUserButtonChar) ∧
      ∀ c, c ∈ new ↔
        c ∈ wandProfile.chars ∧ UUID.String c.UUID = BleUUIDIOUserButtonChar ∧
          c.UUID ≠ ServiceChangedUUID ∧ c.UUID ≠ reservedUUID ∧
          c.Property &&& CharNotify ≠ 0 :=
  Subscribe_registers_exactly_selected acceptAll (fun _ _ => rfl) wandProfile false
    BleUUIDIOUserButtonChar [] []

theorem subscribeSeq_ok (r : List Call → Call → Option String)
    (hacc : ∀ h c, r h (Call.subscribe c false) = none) (prof : Profile)
    (b : Bool) (uids : List String) :
    ∀ calls subs, subscribeSeq ⟨some ⟨r, calls⟩, some prof, b, subs⟩ uids =
      .ret () ⟨some ⟨r, calls ++ uids.flatMap (fun u => prof.chars.flatMap (charTrace u))⟩,
        some prof, b,
        subs ++ uids.flatMap (fun u => (prof.chars.filter (selected u)).map some)⟩ := by
  induction uids with
  | nil => intro calls subs; simp [subscribeSeq]
  | cons u us ih =>
    intro calls subs
    simp only [subscribeSeq, Subscribe_ok r hacc, ih]
    simp [List.flatMap_cons]

theorem count_map_some (l : List Characteristic) (c : Characteristic) :
    (l.map some).count (some c) = l.count c := by
  induction l with
  | nil => rfl
  | cons a l ih => simp [List.count_cons, ih]

theorem count_flatMap_replicate {α β : Type} [BEq β] (n : Nat) (u : α)
    (f : α → List β) (x : β) :
    ((List.replicate n u).flatMap f).count x = n * (f u).count x := by
  induction n with
  | zero => simp
  | succ n ih =>
    simp only [List.replicate_succ, List.flatMap_cons, List.count_append, ih]
    ring

/-- C6 (counterexample): on the sample session, whose profile has the button
characteristic once, two calls `Subscribe(BleUUIDIOUserButtonChar)` both
return, the client is asked twice to register a callback for the button
characteristic, and the subscription list holds two entries for it. -/
theorem Subscribe_twice_registers_twice :
    (subscribeSeq freshKit [BleUUIDIOUserButtonChar, BleUUIDIOUserButtonChar]).ending
        = .returned () ∧
      registrations
        (subscribeSeq freshKit [BleUUIDIOUserButtonChar, BleUUIDIOUserButtonChar]).state.log
        = [buttonChr, buttonChr] ∧
      (subscribeSeq freshKit [BleUUIDIOUserButtonChar, BleUUIDIOUserButtonChar]).state.subscriptions
        = [some buttonChr, some buttonChr] := by
  decide

/-- C6 (amended): `Subscribe` keeps no record of what is already subscribed.
On a connected session whose client accepts registrations, `n` successive
calls `Subscribe(uid)` all return, each asks the client again to register a
callback for every selected characteristic and appends it once more: the
subscription list gains `n` entries for each occurrence of a selected
characteristic in the profile. -/
theorem Subscribe_repeats_registration (r : List Call → Call → Option String)
    (hacc : ∀ h c, r h (Call.subscribe c false) = none) (prof : Profile)
    (b : Bool) (uid : String) (calls : List Call) (subs : List (Option Characteristic))
    (n : Nat) :
    ∃ wk1,
      subscribeSeq ⟨some ⟨r, calls⟩, some prof, b, subs⟩ (List.replicate n uid) = .ret () wk1 ∧
      registrations wk1.log =
        registrations calls ++
          (List.replicate n uid).flatMap (fun u => prof.chars.filter (selected u)) ∧
      wk1.subscriptions =
        subs ++ (List.replicate n uid).flatMap
          (fun u => (prof.chars.filter (selected u)).map some) ∧
      ∀ c, (registrations wk1.log).count c =
          (registrations calls).count c + n * (prof.chars.filter (selected uid)).count c ∧
        wk1.subscriptions.count (some c) =
          subs.count (some c) + n * (prof.chars.filter (selected uid)).count c := by
  have hreg : ∀ us : List String,
      registrations (us.flatMap (fun u => prof.chars.flatMap (charTrace u))) =
        us.flatMap (fun u => prof.chars.filter (selected u)) := by
    intro us
    induction us with
    | nil => rfl
    | cons u us ih =>
      simp only [List.flatMap_cons, registrations_append, registrations_trace, ih]
  refine ⟨_, subscribeSeq_ok r hacc prof b (List.replicate n uid) calls subs, ?_, rfl, ?_⟩
  · simp only [WandKit.log, registrations_append, hreg]
  · intro c
    constructor
    · simp only [WandKit.log, registrations_append, hreg, List.count_append,
        count_flatMap_replicate]
    · simp only [List.count_append, count_flatMap_replicate, count_map_some]

theorem Subscribe_repeats_registration_witness :
    ∃ wk1,
      subscribeSeq ⟨some ⟨acceptAll, []⟩, some wandProfile, false, []⟩
        (List.replicate 3 BleUUIDIOUserButtonChar) = .ret () wk1 ∧
      registrations wk1.log =
        registrations [] ++
          (List.replicate 3 BleUUIDIOUserButtonChar).flatMap
            (fun u => wandProfile.chars.filter (selected u)) ∧
      wk1.subscriptions =
        [] ++ (List.replicate 3 BleUUIDIOUserButtonChar).flatMap
          (fun u => (wandProfile.chars.filter (selected u)).map some) ∧
      ∀ c, (registrations wk1.log).count c =
          (registrations []).count c +
            3 * (wandProfile.chars.filter (selected BleUUIDIOUserButtonChar)).count c ∧
        wk1.subscriptions.count (some c) =
          ([] : List (Option Characteristic)).count (some c) +
            3 * (wandProfile.chars.filter (selected BleUUIDIOUserButtonChar)).count c :=
  Subscribe_repeats_registration acceptAll (fun _ _ => rfl) wandProfile false
    BleUUIDIOUserButtonChar [] [] 3

/-! ## `Unsubscribe` -/

theorem unsubscribeLoop_ok (r : List Call → Call → Option String) (p : Option Profile)
    (b : Bool) (subs : List (Option Characteristic)) (uid : String)
    (cs : List (Option Characteristic)) :
    ∀ calls, unsubscribeLoop ⟨some ⟨r, calls⟩, p, b, subs⟩ uid cs =
      .ret () ⟨some ⟨r, calls ++ unsubscribeTrace uid cs⟩, p, b, subs⟩ := by
  induction cs with
  | nil => intro calls; simp [unsubscribeLoop, unsubscribeTrace]
  | cons c cs ih =>
    intro calls
    cases c with
    | none => simpa [unsubscribeLoop, unsubscribeTrace] using ih calls
    | some c =>
      by_cases h : UUID.Equal c.UUID (UUID.ofString uid) = true
      · simp only [unsubscribeLoop, h, if_true, WandKit.clnCall, ih]
        simp [unsubscribeTrace, List.filter_cons, h]
      · simp only [unsubscribeLoop, h, ih]
        simp [unsubscribeTrace, List.filter_cons, h]

/-- C7 (counterexample): on a session where the button characteristic is the
recorded subscription, `Unsubscribe(BleUUIDIOUserButtonChar)` returns and the
button characteristic, whose UUID is the requested one, is still recorded. -/
theorem Unsubscribe_leaves_entry_recorded :
    (WandKit.Unsubscribe subscribedKit BleUUIDIOUserButtonChar).ending = .returned () ∧
      UUID.String buttonChr.UUID = BleUUIDIOUserButtonChar ∧
      some buttonChr ∈
        (WandKit.Unsubscribe subscribedKit BleUUIDIOUserButtonChar).state.subscriptions := by
  decide

theorem unsubscribeTrace_only_unsubscribe (uid : String)
    (subs : List (Option Characteristic)) :
    ∀ k ∈ unsubscribeTrace uid subs, ∃ c ind, k = Call.unsubscribe c ind ∧ some c ∈ subs := by
  intro k hk
  simp only [unsubscribeTrace, List.mem_map, List.mem_filter, List.mem_filterMap] at hk
  obtain ⟨c, ⟨⟨x, hx, hxc⟩, _⟩, rfl⟩ := hk
  refine ⟨c, true, rfl, ?_⟩
  simp only [id] at hxc
  rw [← hxc]
  exact hx

theorem unsubscriptions_unsubscribeTrace (uid : String)
    (subs : List (Option Characteristic)) :
    unsubscriptions (unsubscribeTrace uid subs) =
      (subs.filterMap id).filter (fun c => UUID.Equal c.UUID (UUID.ofString uid)) := by
  unfold unsubscribeTrace
  induction (subs.filterMap id).filter (fun c => UUID.Equal c.UUID (UUID.ofString uid)) with
  | nil => rfl
  | cons c cs ih => simpa [unsubscriptions] using ih

/-- C7 (amended): on a connected session, for every uid and whatever the
client answers, `Unsubscribe(uid)` returns and leaves the subscription list
exactly as it was: no entry is removed or marked. The requests it made to the
client are unsubscribe requests for recorded non-nil subscriptions only, at
most one per entry and in list order, and they are the same requests whether
the client answers with success or with an error. -/
theorem Unsubscribe_returns_keeps_list (r : List Call → Call → Option String)
    (calls : List Call) (p : Option Profile) (b : Bool)
    (subs : List (Option Characteristic)) (uid : String) :
    ∃ wk1 new,
      WandKit.Unsubscribe ⟨some ⟨r, calls⟩, p, b, subs⟩ uid = .ret () wk1 ∧
      wk1.subscriptions = subs ∧ wk1.p = p ∧ wk1.button = b ∧
      wk1.log = calls ++ new ∧
      (∀ k ∈ new, ∃ c ind, k = Call.unsubscribe c ind ∧ some c ∈ subs) ∧
      (unsubscriptions new).Sublist (subs.filterMap id) ∧
      ∀ r2 : List Call → Call → Option String,
        (WandKit.Unsubscribe ⟨some ⟨r2, calls⟩, p, b, subs⟩ uid).ending = .returned () ∧
        (WandKit.Unsubscribe ⟨some ⟨r2, calls⟩, p, b, subs⟩ uid).state.log = calls ++ new ∧
        (WandKit.Unsubscribe ⟨some ⟨r2, calls⟩, p, b, subs⟩ uid).state.subscriptions = subs := by
  refine ⟨_, unsubscribeTrace uid subs, unsubscribeLoop_ok r p b subs uid subs calls,
    rfl, rfl, rfl, rfl, unsubscribeTrace_only_unsubscribe uid subs, ?_, ?_⟩
  · rw [unsubscriptions_unsubscribeTrace]
    exact List.filter_sublist _
  · intro r2
    have h2 := unsubscribeLoop_ok r2 p b subs uid subs calls
    simp [WandKit.Unsubscribe, h2, Res.ending, Res.state, WandKit.log]

/-- The comparison of `Unsubscribe` is made with the 32 bytes of the text of
`uid`, which a UUID of 2 or 16 bytes never equals: for the button
characteristic and its own UUID no request reaches the client. -/
theorem Unsubscribe_button_reaches_no_client :
    UUID.Equal buttonChr.UUID (UUID.ofString BleUUIDIOUserButtonChar) = false ∧
      (WandKit.Unsubscribe subscribedKit BleUUIDIOUserButtonChar).state.log = [] := by
  decide

/-! ## The signal handler -/

theorem shutdownLoop_ok (r : List Call → Call → Option String) (p : Option Profile)
    (b : Bool) (subs : List (Option Characteristic)) (cs : List (Option Characteristic)) :
    ∀ calls, acceptsCalls r calls (shutdownTrace cs) = true →
      shutdownLoop ⟨some ⟨r, calls⟩, p, b, subs⟩ cs =
        .ret () ⟨some ⟨r, calls ++ shutdownTrace cs⟩, p, b, subs⟩ := by
  induction cs with
  | nil => intro calls _; simp [shutdownLoop, shutdownTrace]
  | cons c cs ih =>
    intro calls hacc
    cases c with
    | none =>
      have hacc1 : acceptsCalls r calls (shutdownTrace cs) = true := by
        simpa [shutdownTrace] using hacc
      simpa [shutdownLoop, shutdownTrace] using ih calls hacc1
    | some c =>
      have hacc1 : (r calls (Call.unsubscribe c false)).isNone = true ∧
          acceptsCalls r (calls ++ [Call.unsubscribe c false]) (shutdownTrace cs) = true := by
        simpa [shutdownTrace, acceptsCalls] using hacc
      have hx : r calls (Call.unsubscribe c false) = none :=
        Option.isNone_iff_eq_none.1 hacc1.1
      simp only [shutdownLoop, WandKit.clnCall, hx, ih _ hacc1.2]
      simp [shutdownTrace]

theorem shutdownLoop_stops (r : List Call → Call → Option String) (p : Option Profile)
    (b : Bool) (subs : List (Option Characteristic)) (c : Characteristic)
    (post : List (Option Characteristic)) (e : String)
    (pre : List (Option Characteristic)) :
    ∀ calls, acceptsCalls r calls (shutdownTrace pre) = true →
      r (calls ++ shutdownTrace pre) (Call.unsubscribe c false) = some e →
      shutdownLoop ⟨some ⟨r, calls⟩, p, b, subs⟩ (pre ++ some c :: post) =
        .exit 1 ⟨some ⟨r, calls ++ shutdownTrace pre ++ [Call.unsubscribe c false]⟩,
          p, b, subs⟩ := by
  induction pre with
  | nil =>
    intro calls _ he
    simp only [shutdownTrace, List.filterMap_nil, List.map_nil, List.append_nil] at he
    simp [shutdownLoop, WandKit.clnCall, he, shutdownTrace]
  | cons x pre ih =>
    intro calls hacc he
    cases x with
    | none =>
      have hacc1 : acceptsCalls r calls (shutdownTrace pre) = true := by
        simpa [shutdownTrace] using hacc
      have he1 : r (calls ++ shutdownTrace pre) (Call.unsubscribe c false) = some e := by
        simpa [shutdownTrace] using he
      simpa [shutdownLoop, shutdownTrace] using ih calls hacc1 he1
    | some x =>
      have hacc1 : (r calls (Call.unsubscribe x false)).isNone = true ∧
          acceptsCalls r (calls ++ [Call.unsubscribe x false]) (shutdownTrace pre) = true := by
        simpa [shutdownTrace, acceptsCalls] using hacc
      have hx : r calls (Call.unsubscribe x false) = none :=
        Option.isNone_iff_eq_none.1 hacc1.1
      have he1 : r ((calls ++ [Call.unsubscribe x false]) ++ shutdownTrace pre)
          (Call.unsubscribe c false) = some e := by
        simpa [shutdownTrace] using he
      have hstep := ih (calls ++ [Call.unsubscribe x false]) hacc1.2 he1
      show shutdownLoop _ (some x :: (pre ++ some c :: post)) = _
      simp only [shutdownLoop, WandKit.clnCall, hx, hstep]
      simp [shutdownTrace]

theorem shutdown_cases (r : List Call → Call → Option String)
    (subs : List (Option Characteristic)) :
    ∀ calls, acceptsCalls r calls (shutdownTrace subs) = true ∨
      ∃ pre c post e, subs = pre ++ some c :: post ∧
        acceptsCalls r calls (shutdownTrace pre) = true ∧
        r (calls ++ shutdownTrace pre) (Call.unsubscribe c false) = some e := by
  induction subs with
  | nil => intro calls; left; rfl
  | cons x xs ih =>
    intro calls
    cases x with
    | none =>
      rcases ih calls with h | ⟨pre, c, post, e, hs, ha, he⟩
      · left
        simpa [shutdownTrace] using h
      · right
        refine ⟨none :: pre, c, post, e, by simp [hs], ?_, ?_⟩
        · simpa [shutdownTrace] using ha
        · simpa [shutdownTrace] using he
    | some x =>
      cases hx : r calls (Call.unsubscribe x false) with
      | some e =>
        right
        exact ⟨[], x, xs, e, rfl, rfl, by simpa [shutdownTrace] using hx⟩
      | none =>
        rcases ih (calls ++ [Call.unsubscribe x false]) with h | ⟨pre, c, post, e, hs, ha, he⟩
        · left
          simp only [shutdownTrace, List.filterMap_cons, id, List.map_cons, acceptsCalls, hx,
            Option.isNone_none, Bool.true_and]
          simpa [shutdownTrace] using h
        · right
          refine ⟨some x :: pre, c, post, e, by simp [hs], ?_, ?_⟩
          · simp only [shutdownTrace, List.filterMap_cons, id, List.map_cons, acceptsCalls, hx,
              Option.isNone_none, Bool.true_and]
            simpa [shutdownTrace] using ha
          · simpa [shutdownTrace] using he

/-- C8 (counterexample): on a session with the button and the quaternions
characteristics subscribed and a client that refuses to unsubscribe, the signal
handler ends the process with status 1 after the single request to unsubscribe
the button characteristic: the quaternions characteristic is not unsubscribed
and `CancelConnection` is not called. -/
theorem signalHandler_aborts_on_first_failure :
    (signalHandler brokenKit).ending = .exited 1 ∧
      (signalHandler brokenKit).state.log = [Call.unsubscribe buttonChr false] ∧
      Call.unsubscribe quaternionsChr false ∉ (signalHandler brokenKit).state.log ∧
      Call.cancelConnection ∉ (signalHandler brokenKit).state.log := by
  decide

/-- C8 (amended): on a connected session the signal handler asks the client to
unsubscribe the non-nil subscriptions in list order. When the client answers
nil to each of these requests as they are made, the handler then calls
`CancelConnection` and the process exits, with status 0 or, when the
cancellation fails, -1. When the client answers nil to the requests for `pre`
and an error to the next request, the process exits with status 1 at once: the
later subscriptions are not unsubscribed and `CancelConnection` is not called.
Every client and subscription list falls under one of the two cases. -/
theorem signalHandler_unsubscribes_until_failure (r : List Call → Call → Option String)
    (calls : List Call) (prof : Profile) (b : Bool) :
    (∀ subs, acceptsCalls r calls (shutdownTrace subs) = true →
      signalHandler ⟨some ⟨r, calls⟩, some prof, b, subs⟩ =
        .exit (if (r (calls ++ shutdownTrace subs) Call.cancelConnection).isNone then 0 else -1)
          ⟨some ⟨r, calls ++ shutdownTrace subs ++ [Call.cancelConnection]⟩,
            some prof, b, subs⟩) ∧
    (∀ pre c post e, acceptsCalls r calls (shutdownTrace pre) = true →
      r (calls ++ shutdownTrace pre) (Call.unsubscribe c false) = some e →
      signalHandler ⟨some ⟨r, calls⟩, some prof, b, pre ++ some c :: post⟩ =
        .exit 1 ⟨some ⟨r, calls ++ shutdownTrace pre ++ [Call.unsubscribe c false]⟩,
          some prof, b, pre ++ some c :: post⟩) ∧
    (∀ subs, acceptsCalls r calls (shutdownTrace subs) = true ∨
      ∃ pre c post e, subs = pre ++ some c :: post ∧
        acceptsCalls r calls (shutdownTrace pre) = true ∧
        r (calls ++ shutdownTrace pre) (Call.unsubscribe c false) = some e) := by
  refine ⟨?_, ?_, fun subs => shutdown_cases r subs calls⟩
  · intro subs hacc
    have hloop := shutdownLoop_ok r (some prof) b subs subs calls hacc
    cases subs with
    | nil =>
      cases hresp : r calls Call.cancelConnection <;>
        simp [signalHandler, shutdownDisconnect, WandKit.clnCall, shutdownTrace, hresp]
    | cons x xs =>
      cases hresp : r (calls ++ shutdownTrace (x :: xs)) Call.cancelConnection <;>
        simp [signalHandler, hloop, shutdownDisconnect, WandKit.clnCall, hresp]
  · intro pre c post e hpre he
    have hloop := shutdownLoop_stops r (some prof) b (pre ++ some c :: post) c post e pre
      calls hpre he
    simp [signalHandler, hloop]

theorem signalHandler_unsubscribes_until_failure_witness :
    signalHandler ⟨some ⟨acceptAll, []⟩, some wandProfile, false,
        [some buttonChr, none, some quaternionsChr]⟩ =
      .exit 0 ⟨some ⟨acceptAll, [Call.unsubscribe buttonChr false,
          Call.unsubscribe quaternionsChr false, Call.cancelConnection]⟩,
        some wandProfile, false, [some buttonChr, none, some quaternionsChr]⟩ ∧
    signalHandler ⟨some ⟨failsSecond, []⟩, some wandProfile, false,
        [some buttonChr, none] ++ some buttonChr :: [some quaternionsChr]⟩ =
      .exit 1 ⟨some ⟨failsSecond,
          [] ++ shutdownTrace [some buttonChr, none] ++ [Call.unsubscribe buttonChr false]⟩,
        some wandProfile, false,
        [some buttonChr, none] ++ some buttonChr :: [some quaternionsChr]⟩ :=
  ⟨(signalHandler_unsubscribes_until_failure acceptAll [] wandProfile false).1
      [some buttonChr, none, some quaternionsChr] (by decide),
    (signalHandler_unsubscribes_until_failure failsSecond [] wandProfile false).2.1
      [some buttonChr, none] buttonChr [some quaternionsChr] "att: timeout"
      (by decide) (by decide)⟩

/-! ## The streaming handlers -/

theorem ToUint32_eq (a b : GoByte) : ToUint32 a b = a.val * 256 + b.val := by
  have ha : a.val < 256 := a.isLt
  have hb : b.val < 2 ^ 8 := b.isLt
  have h1 : a.val <<< 8 = 2 ^ 8 * a.val := by rw [Nat.shiftLeft_eq, Nat.mul_comm]
  have h2 : (2 ^ 8 * a.val) % 2 ^ 32 = 2 ^ 8 * a.val := Nat.mod_eq_of_lt (by omega)
  unfold ToUint32
  rw [h1, h2, ← Nat.mul_add_lt_is_or hb]
  omega

theorem liftWk_stream {μ : Type} (st : ServerStream μ) (e : Option GoError)
    (res : Res WandKit Unit) : (liftWk st e res).state.stream = st := by
  cases res <;> rfl

theorem liftWk_not_mismatch {μ : Type} (st : ServerStream μ) (err : String)
    (res : Res WandKit Unit) :
    (liftWk st (some (GoError.fromSend err)) res).ending ≠ .returned (some mismatch) := by
  cases res <;> simp [liftWk, Res.ending, mismatch]

theorem buttonLoop_not_mismatch (arrivals : List (List GoByte)) :
    ∀ wk stream, (buttonLoop wk stream arrivals).ending ≠ .returned (some mismatch) := by
  induction arrivals with
  | nil => intro wk stream; simp [buttonLoop, Res.ending]
  | cons data rest ih =>
    intro wk stream
    unfold buttonLoop
    cases hd : (data[0]? : Option GoByte) with
    | none => simp [Res.ending]
    | some b =>
      cases hr : stream.respond stream.sent ⟨decide (b = 1)⟩ with
      | none => simpa [hr] using ih _ _
      | some err => simpa [hr] using liftWk_not_mismatch _ err _

theorem motionLoop_not_mismatch (arrivals : List (List GoByte)) :
    ∀ wk stream, (motionLoop wk stream arrivals).ending ≠ .returned (some mismatch) := by
  induction arrivals with
  | nil => intro wk stream; simp [motionLoop, Res.ending]
  | cons data rest ih =>
    intro wk stream
    unfold motionLoop
    cases hd : motionMessage data with
    | none => simp [Res.ending]
    | some msg =>
      cases hr : stream.respond stream.sent msg with
      | none => simpa [hr] using ih _ _
      | some err => simpa [hr] using liftWk_not_mismatch _ err _

theorem OnButton_mismatch_iff (s : blueWandServer) (r : Identifier)
    (stream : ServerStream ButtonMessage) (arrivals : List (List GoByte)) :
    (s.OnButton r stream arrivals).ending = .returned (some mismatch) ↔
      r.Uid ≠ s.identifer.Uid := by
  unfold blueWandServer.OnButton
  by_cases h : r.Uid = s.identifer.Uid
  · simp only [h, ne_eq, not_true_eq_false, if_false, iff_false]
    cases hs : s.wk.Subscribe BleUUIDIOUserButtonChar with
    | ret a w => exact buttonLoop_not_mismatch arrivals w stream
    | panic w => simp [Res.ending]
    | exit n w => simp [Res.ending]
  · simp [h, Res.ending]

theorem OnMotion_mismatch_iff (s : blueWandServer) (r : Identifier)
    (stream : ServerStream MotionMessage) (arrivals : List (List GoByte)) :
    (s.OnMotion r stream arrivals).ending = .returned (some mismatch) ↔
      r.Uid ≠ s.identifer.Uid := by
  unfold blueWandServer.OnMotion
  by_cases h : r.Uid = s.identifer.Uid
  · simp only [h, ne_eq, not_true_eq_false, if_false, iff_false]
    cases hs : s.wk.Subscribe BleUUIDSensorQuaternionsChar with
    | ret a w => exact motionLoop_not_mismatch arrivals w stream
    | panic w => simp [Res.ending]
    | exit n w => simp [Res.ending]
  · simp [h, Res.ending]

/-- C1: for every server, request identifier, stream and sequence of payloads,
`OnButton` and `OnMotion` return the identifier-mismatch error if and only if
the request's `Uid` differs from the server's; with the identifier `OnConnect`
returned neither of them returns it. -/
theorem mismatch_error_iff_uid_differs (s : blueWandServer) (r : Identifier)
    (sb : ServerStream ButtonMessage) (sm : ServerStream MotionMessage)
    (ab am : List (List GoByte)) :
    ((s.OnButton r sb ab).ending = .returned (some mismatch) ↔ r.Uid ≠ s.identifer.Uid) ∧
    ((s.OnMotion r sm am).ending = .returned (some mismatch) ↔ r.Uid ≠ s.identifer.Uid) ∧
    (s.OnButton s.OnConnect.1 sb ab).ending ≠ .returned (some mismatch) ∧
    (s.OnMotion s.OnConnect.1 sm am).ending ≠ .returned (some mismatch) := by
  refine ⟨OnButton_mismatch_iff s r sb ab, OnMotion_mismatch_iff s r sm am, ?_, ?_⟩
  · intro h
    exact (OnButton_mismatch_iff s s.OnConnect.1 sb ab).1 h rfl
  · intro h
    exact (OnMotion_mismatch_iff s s.OnConnect.1 sm am).1 h rfl

/-- C2: for a request whose `Uid` differs from the server's, whatever the
session and the payloads, `OnButton` and `OnMotion` return the mismatch error
with the stream and the `WandKit` untouched: nothing was handed to `Send`, the
client received no request, and the subscription list is the same. -/
theorem mismatch_touches_nothing (s : blueWandServer) (r : Identifier)
    (sb : ServerStream ButtonMessage) (sm : ServerStream MotionMessage)
    (ab am : List (List GoByte)) (h : r.Uid ≠ s.identifer.Uid) :
    s.OnButton r sb ab = .ret (some mismatch) ⟨s.wk, sb⟩ ∧
    s.OnMotion r sm am = .ret (some mismatch) ⟨s.wk, sm⟩ ∧
    (s.OnButton r sb ab).state.stream.sent = sb.sent ∧
    (s.OnMotion r sm am).state.stream.sent = sm.sent ∧
    (s.OnButton r sb ab).state.wk.log = s.wk.log ∧
    (s.OnMotion r sm am).state.wk.log = s.wk.log ∧
    (s.OnButton r sb ab).state.wk.subscriptions = s.wk.subscriptions ∧
    (s.OnMotion r sm am).state.wk.subscriptions = s.wk.subscriptions := by
  have hb : s.OnButton r sb ab = .ret (some mismatch) ⟨s.wk, sb⟩ := by
    simp [blueWandServer.OnButton, h]
  have hm : s.OnMotion r sm am = .ret (some mismatch) ⟨s.wk, sm⟩ := by
    simp [blueWandServer.OnMotion, h]
  refine ⟨hb, hm, ?_, ?_, ?_, ?_, ?_, ?_⟩ <;> simp [hb, hm, Res.state]

theorem mismatch_touches_nothing_witness :
    (⟨"00:00:00:00:00:00"⟩ : Identifier).Uid ≠ wandServer.identifer.Uid ∧
    wandServer.OnButton ⟨"00:00:00:00:00:00"⟩ (openStream ButtonMessage) [[1], [0]] =
      .ret (some mismatch) ⟨wandServer.wk, openStream ButtonMessage⟩ :=
  ⟨by decide,
    (mismatch_touches_nothing wandServer ⟨"00:00:00:00:00:00"⟩ (openStream ButtonMessage)
      (openStream MotionMessage) [[1], [0]] [] (by decide)).1⟩

theorem motionMessage_eight (b0 b1 b2 b3 b4 b5 b6 b7 : GoByte) :
    motionMessage [b0, b1, b2, b3, b4, b5, b6, b7] =
      some ⟨b0.val * 256 + b1.val, b2.val * 256 + b3.val, b4.val * 256 + b5.val,
        b6.val * 256 + b7.val⟩ := by
  simp [motionMessage, ToUint32_eq]

theorem motionMessage_short (data : List GoByte) (h : data.length < 8) :
    motionMessage data = none := by
  rcases data with _ | ⟨a0, _ | ⟨a1, _ | ⟨a2, _ | ⟨a3, _ | ⟨a4, _ | ⟨a5, _ | ⟨a6, _ | ⟨a7, t⟩⟩⟩⟩⟩⟩⟩⟩
  all_goals first
    | (simp at h; omega)
    | simp [motionMessage]

theorem motionLoop_sent_prefix (arrivals : List (List GoByte)) :
    ∀ wk (stream : ServerStream MotionMessage),
      stream.sent <+: (motionLoop wk stream arrivals).state.stream.sent := by
  induction arrivals with
  | nil => intro wk stream; simp [motionLoop, Res.state]
  | cons data rest ih =>
    intro wk stream
    unfold motionLoop
    cases hd : motionMessage data with
    | none => simp [Res.state]
    | some msg =>
      cases hr : stream.respond stream.sent msg with
      | none =>
        simp only [hr]
        exact (List.prefix_append stream.sent [msg]).trans (ih wk (stream.push msg))
      | some err =>
        simp only [hr, liftWk_stream]
        exact List.prefix_append stream.sent [msg]

theorem buttonLoop_sent_prefix (arrivals : List (List GoByte)) :
    ∀ wk (stream : ServerStream ButtonMessage),
      stream.sent <+: (buttonLoop wk stream arrivals).state.stream.sent := by
  induction arrivals with
  | nil => intro wk stream; simp [buttonLoop, Res.state]
  | cons data rest ih =>
    intro wk stream
    unfold buttonLoop
    cases hd : (data[0]? : Option GoByte) with
    | none => simp [Res.state]
    | some b =>
      cases hr : stream.respond stream.sent ⟨decide (b = 1)⟩ with
      | none =>
        simp only [hr]
        exact (List.prefix_append stream.sent [_]).trans (ih _ (stream.push _))
      | some err =>
        simp only [hr, liftWk_stream]
        exact List.prefix_append stream.sent [_]

theorem motionLoop_first (wk : WandKit) (stream : ServerStream MotionMessage)
    (data : List GoByte) (msg : MotionMessage) (rest : List (List GoByte))
    (h : motionMessage data = some msg) :
    stream.sent ++ [msg] <+: (motionLoop wk stream (data :: rest)).state.stream.sent := by
  unfold motionLoop
  simp only [h]
  cases hr : stream.respond stream.sent msg with
  | none => exact motionLoop_sent_prefix rest wk (stream.push msg)
  | some err => simp only [liftWk_stream]; exact List.prefix_refl _

theorem buttonLoop_first (wk : WandKit) (stream : ServerStream ButtonMessage)
    (b : GoByte) (tl : List GoByte) (rest : List (List GoByte)) :
    stream.sent ++ [⟨decide (b = 1)⟩] <+:
      (buttonLoop wk stream ((b :: tl) :: rest)).state.stream.sent := by
  unfold buttonLoop
  simp only [List.getElem?_cons_zero]
  cases hr : stream.respond stream.sent ⟨decide (b = 1)⟩ with
  | none => exact buttonLoop_sent_prefix rest _ (stream.push _)
  | some err => simp only [liftWk_stream]; exact List.prefix_refl _

/-- C3: on a connected session whose client accepts registrations, when the
first payload `OnMotion` receives has exactly the 8 bytes `b0..b7`, the first
message it hands to `Send` has `W = b0*256 + b1`, `X = b2*256 + b3`,
`Y = b4*256 + b5`, `Z = b6*256 + b7`, each below 65536; the payload
`[0x00,0x05,0x00,0x0A,0x00,0x0F,0x00,0x14]` gives `5, 10, 15, 20`. -/
theorem OnMotion_decodes_big_endian (r : List Call → Call → Option String)
    (hacc : ∀ h c, r h (Call.subscribe c false) = none) (prof : Profile) (b : Bool)
    (calls : List Call) (subs : List (Option Characteristic)) (ident : Identifier)
    (stream : ServerStream MotionMessage) (b0 b1 b2 b3 b4 b5 b6 b7 : GoByte)
    (rest : List (List GoByte)) :
    motionMessage [b0, b1, b2, b3, b4, b5, b6, b7] =
      some ⟨b0.val * 256 + b1.val, b2.val * 256 + b3.val, b4.val * 256 + b5.val,
        b6.val * 256 + b7.val⟩ ∧
    stream.sent ++ [⟨b0.val * 256 + b1.val, b2.val * 256 + b3.val, b4.val * 256 + b5.val,
        b6.val * 256 + b7.val⟩] <+:
      (blueWandServer.OnMotion ⟨ident, ⟨some ⟨r, calls⟩, some prof, b, subs⟩⟩ ident stream
        ([b0, b1, b2, b3, b4, b5, b6, b7] :: rest)).state.stream.sent ∧
    b0.val * 256 + b1.val < 65536 ∧ b2.val * 256 + b3.val < 65536 ∧
    b4.val * 256 + b5.val < 65536 ∧ b6.val * 256 + b7.val < 65536 ∧
    motionMessage [0x00, 0x05, 0x00, 0x0A, 0x00, 0x0F, 0x00, 0x14] = some ⟨5, 10, 15, 20⟩ := by
  refine ⟨motionMessage_eight .., ?_, by omega, by omega, by omega, by omega, by decide⟩
  simp only [blueWandServer.OnMotion, ne_eq, not_true_eq_false, if_false,
    Subscribe_ok r hacc]
  exact motionLoop_first _ stream _ _ rest (motionMessage_eight ..)

theorem OnMotion_decodes_big_endian_witness :
    (blueWandServer.OnMotion wandServer wandServer.identifer (openStream MotionMessage)
        [[0x00, 0x05, 0x00, 0x0A, 0x00, 0x0F, 0x00, 0x14]]).state.stream.sent
      = [⟨5, 10, 15, 20⟩] ∧
    [] ++ [(⟨0 * 256 + 5, 0 * 256 + 10, 0 * 256 + 15, 0 * 256 + 20⟩ : MotionMessage)] <+:
      (blueWandServer.OnMotion ⟨wandServer.identifer,
          ⟨some ⟨acceptAll, []⟩, some wandProfile, false, []⟩⟩ wandServer.identifer
        (openStream MotionMessage)
        ([0x00, 0x05, 0x00, 0x0A, 0x00, 0x0F, 0x00, 0x14] :: [])).state.stream.sent :=
  ⟨by decide,
    (OnMotion_decodes_big_endian acceptAll (fun _ _ => rfl) wandProfile false [] []
      wandServer.identifer (openStream MotionMessage) 0x00 0x05 0x00 0x0A 0x00 0x0F 0x00 0x14
      []).2.1⟩

/-- C4 (counterexample): with the right identifier and a stream that accepts
everything, `OnButton` receiving the empty payload panics on `data[0]`; it
hands nothing to `Send`. -/
theorem OnButton_empty_payload_panics :
    (wandServer.OnButton wandServer.identifer (openStream ButtonMessage) [[]]).ending
        = .panicked ∧
      (wandServer.OnButton wandServer.identifer
        (openStream ButtonMessage) [[]]).state.stream.sent = [] := by
  decide

/-- C4 (amended): on a connected session whose client accepts registrations,
for every payload with a first byte `b`, the first message `OnButton` hands to
`Send` has `Pressed = true` when `b = 1` and `Pressed = false` otherwise; when
that payload is the only one and `Send` accepts the message, `OnButton` returns
no error. -/
theorem OnButton_translates_first_byte (r : List Call → Call → Option String)
    (hacc : ∀ h c, r h (Call.subscribe c false) = none) (prof : Profile) (b0 : Bool)
    (calls : List Call) (subs : List (Option Characteristic)) (ident : Identifier)
    (stream : ServerStream ButtonMessage) (b : GoByte) (tl : List GoByte)
    (rest : List (List GoByte)) :
    stream.sent ++ [⟨decide (b = 1)⟩] <+:
      (blueWandServer.OnButton ⟨ident, ⟨some ⟨r, calls⟩, some prof, b0, subs⟩⟩ ident stream
        ((b :: tl) :: rest)).state.stream.sent ∧
    (b = 1 → (⟨decide (b = 1)⟩ : ButtonMessage).Pressed = true) ∧
    (b ≠ 1 → (⟨decide (b = 1)⟩ : ButtonMessage).Pressed = false) ∧
    (stream.respond stream.sent ⟨decide (b = 1)⟩ = none →
      (blueWandServer.OnButton ⟨ident, ⟨some ⟨r, calls⟩, some prof, b0, subs⟩⟩ ident stream
        [b :: tl]).ending = .returned none) := by
  refine ⟨?_, by intro h; simp [h], by intro h; simp [h], ?_⟩
  · simp only [blueWandServer.OnButton, ne_eq, not_true_eq_false, if_false,
      Subscribe_ok r hacc]
    exact buttonLoop_first _ stream b tl rest
  · intro hr
    simp [blueWandServer.OnButton, Subscribe_ok r hacc, buttonLoop, hr, Res.ending]

theorem OnButton_translates_first_byte_witness :
    [] ++ [(⟨decide ((1 : GoByte) = 1)⟩ : ButtonMessage)] <+:
      (blueWandServer.OnButton ⟨wandServer.identifer,
          ⟨some ⟨acceptAll, []⟩, some wandProfile, false, []⟩⟩ wandServer.identifer
        (openStream ButtonMessage) (((1 : GoByte) :: [7]) :: [[0]])).state.stream.sent ∧
    (blueWandServer.OnButton ⟨wandServer.identifer,
          ⟨some ⟨acceptAll, []⟩, some wandProfile, false, []⟩⟩ wandServer.identifer
        (openStream ButtonMessage) [(1 : GoByte) :: [7]]).ending = .returned none :=
  ⟨(OnButton_translates_first_byte acceptAll (fun _ _ => rfl) wandProfile false [] []
      wandServer.identifer (openStream ButtonMessage) 1 [7] [[0]]).1,
    (OnButton_translates_first_byte acceptAll (fun _ _ => rfl) wandProfile false [] []
      wandServer.identifer (openStream ButtonMessage) 1 [7] [[0]]).2.2.2 rfl⟩

/-- C5 (counterexample): with the right identifier, `OnMotion` receiving a
payload of 7 bytes panics on `data[7]`: it does not return an error. Nothing
is handed to `Send`. -/
theorem OnMotion_short_payload_panics :
    (wandServer.OnMotion wandServer.identifer (openStream MotionMessage)
        [[0x00, 0x05, 0x00, 0x0A, 0x00, 0x0F, 0x00]]).ending = .panicked ∧
      (wandServer.OnMotion wandServer.identifer (openStream MotionMessage)
        [[0x00, 0x05, 0x00, 0x0A, 0x00, 0x0F, 0x00]]).state.stream.sent = [] := by
  decide

/-- C5 (amended): on a connected session whose client accepts registrations,
when the first payload `OnMotion` receives is shorter than 8 bytes (the empty
payload included), `OnMotion` builds no message from it and hands nothing to
`Send`: the stream is as it was and the handler stops there, by a panic on the
index that is out of range, without returning an error and without calling
`Unsubscribe`. -/
theorem OnMotion_short_payload_sends_nothing (r : List Call → Call → Option String)
    (hacc : ∀ h c, r h (Call.subscribe c false) = none) (prof : Profile) (b : Bool)
    (calls : List Call) (subs : List (Option Characteristic)) (ident : Identifier)
    (stream : ServerStream MotionMessage) (data : List GoByte) (rest : List (List GoByte))
    (hshort : data.length < 8) :
    motionMessage data = none ∧
    blueWandServer.OnMotion ⟨ident, ⟨some ⟨r, calls⟩, some prof, b, subs⟩⟩ ident stream
        (data :: rest) =
      .panic ⟨⟨some ⟨r, calls ++ prof.chars.flatMap (charTrace BleUUIDSensorQuaternionsChar)⟩,
          some prof, b,
          subs ++ (prof.chars.filter (selected BleUUIDSensorQuaternionsChar)).map some⟩,
        stream⟩ := by
  refine ⟨motionMessage_short data hshort, ?_⟩
  simp [blueWandServer.OnMotion, Subscribe_ok r hacc, motionLoop,
    motionMessage_short data hshort]

theorem OnMotion_short_payload_sends_nothing_witness :
    ([1, 2, 3] : List GoByte).length < 8 ∧
    blueWandServer.OnMotion ⟨wandServer.identifer,
        ⟨some ⟨acceptAll, []⟩, some wandProfile, false, []⟩⟩ wandServer.identifer
        (openStream MotionMessage) ([1, 2, 3] :: [[0, 0, 0, 0, 0, 0, 0, 0]]) =
      .panic ⟨⟨some ⟨acceptAll,
            [] ++ wandProfile.chars.flatMap (charTrace BleUUIDSensorQuaternionsChar)⟩,
          some wandProfile, false,
          [] ++ (wandProfile.chars.filter (selected BleUUIDSensorQuaternionsChar)).map some⟩,
        openStream MotionMessage⟩ :=
  ⟨by decide,
    (OnMotion_short_payload_sends_nothing acceptAll (fun _ _ => rfl) wandProfile false [] []
      wandServer.identifer (openStream MotionMessage) [1, 2, 3] [[0, 0, 0, 0, 0, 0, 0, 0]]
      (by decide)).2⟩

theorem pushAll_nil {μ : Type} (st : ServerStream μ) : st.pushAll [] = st := by
  cases st; simp [ServerStream.pushAll]

theorem push_pushAll {μ : Type} (st : ServerStream μ) (m : μ) (ms : List μ) :
    (st.push m).pushAll ms = st.pushAll (m :: ms) := by
  simp [ServerStream.push, ServerStream.pushAll]

theorem Unsubscribe_ok (r : List Call → Call → Option String)
    (calls : List Call) (p : Option Profile) (b : Bool)
    (subs : List (Option Characteristic)) (uid : String) :
    WandKit.Unsubscribe ⟨some ⟨r, calls⟩, p, b, subs⟩ uid =
      .ret () ⟨some ⟨r, calls ++ unsubscribeTrace uid subs⟩, p, b, subs⟩ :=
  unsubscribeLoop_ok r p b subs uid subs calls

theorem motionMessage_long (data : List GoByte) (h : 8 ≤ data.length) :
    ∃ m, motionMessage data = some m := by
  rcases data with _ | ⟨a0, _ | ⟨a1, _ | ⟨a2, _ | ⟨a3, _ | ⟨a4, _ | ⟨a5, _ | ⟨a6, _ | ⟨a7, t⟩⟩⟩⟩⟩⟩⟩⟩
  all_goals first
    | (exfalso; simp at h; done)
    | simp [motionMessage]

theorem filterMap_motionMessage_length (ds : List (List GoByte))
    (h : ∀ x ∈ ds, 8 ≤ x.length) : (ds.filterMap motionMessage).length = ds.length := by
  induction ds with
  | nil => rfl
  | cons d ds ih =>
    obtain ⟨m, hm⟩ := motionMessage_long d (h d (List.mem_cons_self _ _))
    simp [List.filterMap_cons, hm, ih (fun x hx => h x (List.mem_cons_of_mem _ hx))]

theorem buttonMessage_cons (x : GoByte) (tl : List GoByte) :
    buttonMessage (x :: tl) = ⟨decide (x = 1)⟩ := by
  simp [buttonMessage]

theorem buttonLoop_closed (ds : List (List GoByte)) :
    ∀ (r : List Call → Call → Option String) (calls : List Call) (p : Option Profile)
      (b : Bool) (subs : List (Option Characteristic)) (stream : ServerStream ButtonMessage),
      (∀ x ∈ ds, x ≠ []) → stream.accepts (ds.map buttonMessage) = true →
      buttonLoop ⟨some ⟨r, calls⟩, p, b, subs⟩ stream ds =
        .ret none ⟨⟨some ⟨r, calls⟩, p, lastButton b ds, subs⟩,
          stream.pushAll (ds.map buttonMessage)⟩ := by
  induction ds with
  | nil => intro r calls p b subs stream _ _; simp [buttonLoop, lastButton, pushAll_nil]
  | cons d ds ih =>
    intro r calls p b subs stream hne hacc
    rcases d with _ | ⟨x, tl⟩
    · exact absurd rfl (hne [] (List.mem_cons_self _ _))
    · simp only [List.map_cons, ServerStream.accepts, Bool.and_eq_true,
        Option.isNone_iff_eq_none, buttonMessage_cons] at hacc
      have hstep := ih r calls p (decide (x = 1)) subs (stream.push ⟨decide (x = 1)⟩)
        (fun y hy => hne y (List.mem_cons_of_mem _ hy)) hacc.2
      unfold buttonLoop
      simp only [List.getElem?_cons_zero, hacc.1, hstep]
      simp [lastButton, push_pushAll, buttonMessage_cons]

theorem buttonLoop_failed (d : List GoByte) (post : List (List GoByte)) (e : String)
    (hd : d ≠ []) (pre : List (List GoByte)) :
    ∀ (r : List Call → Call → Option String) (calls : List Call) (p : Option Profile)
      (b : Bool) (subs : List (Option Characteristic)) (stream : ServerStream ButtonMessage),
      (∀ x ∈ pre, x ≠ []) → stream.accepts (pre.map buttonMessage) = true →
      stream.respond (stream.sent ++ pre.map buttonMessage) (buttonMessage d) = some e →
      buttonLoop ⟨some ⟨r, calls⟩, p, b, subs⟩ stream (pre ++ d :: post) =
        .ret (some (.fromSend e))
          ⟨(WandKit.Unsubscribe ⟨some ⟨r, calls⟩, p, (buttonMessage d).Pressed, subs⟩
              BleUUIDIOUserButtonChar).state,
            stream.pushAll ((pre ++ [d]).map buttonMessage)⟩ := by
  induction pre with
  | nil =>
    intro r calls p b subs stream _ _ he
    rcases d with _ | ⟨x, tl⟩
    · exact absurd rfl hd
    · simp only [List.map_nil, List.append_nil, buttonMessage_cons] at he
      unfold buttonLoop
      simp only [List.nil_append, List.getElem?_cons_zero, he, Unsubscribe_ok,
        buttonMessage_cons]
      simp [liftWk, Res.state, ServerStream.push, ServerStream.pushAll, buttonMessage_cons]
  | cons y pre ih =>
    intro r calls p b subs stream hne hacc he
    rcases y with _ | ⟨x, tl⟩
    · exact absurd rfl (hne [] (List.mem_cons_self _ _))
    · simp only [List.map_cons, ServerStream.accepts, Bool.and_eq_true,
        Option.isNone_iff_eq_none, buttonMessage_cons] at hacc
      have he1 : (stream.push ⟨decide (x = 1)⟩).respond
          ((stream.push ⟨decide (x = 1)⟩).sent ++ pre.map buttonMessage)
          (buttonMessage d) = some e := by
        simpa [ServerStream.push, buttonMessage_cons] using he
      have hstep := ih r calls p (decide (x = 1)) subs (stream.push ⟨decide (x = 1)⟩)
        (fun z hz => hne z (List.mem_cons_of_mem _ hz)) hacc.2 he1
      show buttonLoop _ stream ((x :: tl) :: (pre ++ d :: post)) = _
      unfold buttonLoop
      simp only [List.getElem?_cons_zero, hacc.1, hstep]
      simp [push_pushAll, buttonMessage_cons]

theorem motionLoop_closed (ds : List (List GoByte)) :
    ∀ (wk : WandKit) (stream : ServerStream MotionMessage),
      (∀ x ∈ ds, 8 ≤ x.length) → stream.accepts (ds.filterMap motionMessage) = true →
      motionLoop wk stream ds =
        .ret none ⟨wk, stream.pushAll (ds.filterMap motionMessage)⟩ := by
  induction ds with
  | nil => intro wk stream _ _; simp [motionLoop, pushAll_nil]
  | cons d ds ih =>
    intro wk stream hlen hacc
    obtain ⟨m, hm⟩ := motionMessage_long d (hlen d (List.mem_cons_self _ _))
    simp only [List.filterMap_cons, hm, ServerStream.accepts, Bool.and_eq_true,
      Option.isNone_iff_eq_none] at hacc
    unfold motionLoop
    simp only [hm, hacc.1]
    rw [ih wk _ (fun y hy => hlen y (List.mem_cons_of_mem _ hy)) hacc.2]
    simp [List.filterMap_cons, hm, push_pushAll]

theorem motionLoop_failed (d : List GoByte) (m : MotionMessage)
    (post : List (List GoByte)) (e : String) (hm : motionMessage d = some m)
    (pre : List (List GoByte)) :
    ∀ (r : List Call → Call → Option String) (calls : List Call) (p : Option Profile)
      (b : Bool) (subs : List (Option Characteristic)) (stream : ServerStream MotionMessage),
      (∀ x ∈ pre, 8 ≤ x.length) → stream.accepts (pre.filterMap motionMessage) = true →
      stream.respond (stream.sent ++ pre.filterMap motionMessage) m = some e →
      motionLoop ⟨some ⟨r, calls⟩, p, b, subs⟩ stream (pre ++ d :: post) =
        .ret (some (.fromSend e))
          ⟨(WandKit.Unsubscribe ⟨some ⟨r, calls⟩, p, b, subs⟩
              BleUUIDSensorQuaternionsChar).state,
            stream.pushAll (pre.filterMap motionMessage ++ [m])⟩ := by
  induction pre with
  | nil =>
    intro r calls p b subs stream _ _ he
    simp only [List.filterMap_nil, List.append_nil] at he
    unfold motionLoop
    simp only [List.nil_append, hm, he, Unsubscribe_ok]
    simp [liftWk, Res.state, ServerStream.push, ServerStream.pushAll]
  | cons y pre ih =>
    intro r calls p b subs stream hlen hacc he
    obtain ⟨my, hmy⟩ := motionMessage_long y (hlen y (List.mem_cons_self _ _))
    simp only [List.filterMap_cons, hmy, ServerStream.accepts, Bool.and_eq_true,
      Option.isNone_iff_eq_none] at hacc
    have he1 : (stream.push my).respond
        ((stream.push my).sent ++ pre.filterMap motionMessage) m = some e := by
      simpa [ServerStream.push, List.filterMap_cons, hmy] using he
    have hstep := ih r calls p b subs (stream.push my)
      (fun z hz => hlen z (List.mem_cons_of_mem _ hz)) hacc.2 he1
    show motionLoop _ stream (y :: (pre ++ d :: post)) = _
    unfold motionLoop
    simp only [hmy, hacc.1]
    rw [hstep]
    simp [List.filterMap_cons, hmy, push_pushAll]

/-- C9 (counterexample): with the right identifier and a stream that accepts
every message, `OnMotion` receiving a payload of 8 bytes and then one of 3
bytes before the channel closes hands one message to `Send` and panics: it does
not return, and two payloads gave one event. -/
theorem OnMotion_panics_before_closure :
    (openStream MotionMessage).accepts [⟨5, 10, 15, 20⟩] = true ∧
      (wandServer.OnMotion wandServer.identifer (openStream MotionMessage)
        [[0x00, 0x05, 0x00, 0x0A, 0x00, 0x0F, 0x00, 0x14], [1, 2, 3]]).ending = .panicked ∧
      (wandServer.OnMotion wandServer.identifer (openStream MotionMessage)
        [[0x00, 0x05, 0x00, 0x0A, 0x00, 0x0F, 0x00, 0x14], [1, 2, 3]]).state.stream.sent
        = [⟨5, 10, 15, 20⟩] := by
  decide

/-- C9 (amended): on a connected session whose client accepts registrations,
for payloads that are long enough to be translated (non-empty for `OnButton`,
at least 8 bytes for `OnMotion`): when `Send` accepts the events of the
payloads `pre` and fails with `e` on the event of the next payload `d`, the
handler calls `Unsubscribe` for its own characteristic (user button,
respectively quaternions), hands nothing more to `Send` and returns exactly
`e`; when `Send` accepts every event and the channel is closed, the handler
returns no error, having handed to `Send` one event per payload in arrival
order. -/
theorem forwarding_ends_on_emit_failure_or_closure (r : List Call → Call → Option String)
    (hacc : ∀ h c, r h (Call.subscribe c false) = none) (prof : Profile) (b : Bool)
    (calls : List Call) (subs : List (Option Characteristic)) (ident : Identifier) :
    (∀ (stream : ServerStream ButtonMessage) (pre : List (List GoByte)) (d : List GoByte)
        (post : List (List GoByte)) (e : String),
      (∀ x ∈ pre ++ [d], x ≠ []) → stream.accepts (pre.map buttonMessage) = true →
      stream.respond (stream.sent ++ pre.map buttonMessage) (buttonMessage d) = some e →
      blueWandServer.OnButton ⟨ident, ⟨some ⟨r, calls⟩, some prof, b, subs⟩⟩ ident stream
          (pre ++ d :: post) =
        .ret (some (.fromSend e))
          ⟨(WandKit.Unsubscribe
              { afterSubscribe r calls prof b subs BleUUIDIOUserButtonChar with
                button := (buttonMessage d).Pressed } BleUUIDIOUserButtonChar).state,
            stream.pushAll ((pre ++ [d]).map buttonMessage)⟩) ∧
    (∀ (stream : ServerStream ButtonMessage) (ds : List (List GoByte)),
      (∀ x ∈ ds, x ≠ []) → stream.accepts (ds.map buttonMessage) = true →
      blueWandServer.OnButton ⟨ident, ⟨some ⟨r, calls⟩, some prof, b, subs⟩⟩ ident stream ds =
          .ret none
            ⟨{ afterSubscribe r calls prof b subs BleUUIDIOUserButtonChar with
                button := lastButton b ds },
              stream.pushAll (ds.map buttonMessage)⟩ ∧
        (ds.map buttonMessage).length = ds.length) ∧
    (∀ (stream : ServerStream MotionMessage) (pre : List (List GoByte)) (d : List GoByte)
        (m : MotionMessage) (post : List (List GoByte)) (e : String),
      (∀ x ∈ pre, 8 ≤ x.length) → motionMessage d = some m →
      stream.accepts (pre.filterMap motionMessage) = true →
      stream.respond (stream.sent ++ pre.filterMap motionMessage) m = some e →
      blueWandServer.OnMotion ⟨ident, ⟨some ⟨r, calls⟩, some prof, b, subs⟩⟩ ident stream
          (pre ++ d :: post) =
        .ret (some (.fromSend e))
          ⟨(WandKit.Unsubscribe (afterSubscribe r calls prof b subs BleUUIDSensorQuaternionsChar)
              BleUUIDSensorQuaternionsChar).state,
            stream.pushAll (pre.filterMap motionMessage ++ [m])⟩) ∧
    (∀ (stream : ServerStream MotionMessage) (ds : List (List GoByte)),
      (∀ x ∈ ds, 8 ≤ x.length) → stream.accepts (ds.filterMap motionMessage) = true →
      blueWandServer.OnMotion ⟨ident, ⟨some ⟨r, calls⟩, some prof, b, subs⟩⟩ ident stream ds =
          .ret none
            ⟨afterSubscribe r calls prof b subs BleUUIDSensorQuaternionsChar,
              stream.pushAll (ds.filterMap motionMessage)⟩ ∧
        (ds.filterMap motionMessage).length = ds.length) := by
  refine ⟨?_, ?_, ?_, ?_⟩
  · intro stream pre d post e hne hacc1 he
    have hd : d ≠ [] := hne d (by simp)
    have hpre : ∀ x ∈ pre, x ≠ [] := fun x hx => hne x (by simp [hx])
    simp only [blueWandServer.OnButton, ne_eq, not_true_eq_false, if_false,
      Subscribe_ok r hacc]
    exact buttonLoop_failed d post e hd pre r _ (some prof) b _ stream hpre hacc1 he
  · intro stream ds hne hacc1
    refine ⟨?_, by simp⟩
    simp only [blueWandServer.OnButton, ne_eq, not_true_eq_false, if_false,
      Subscribe_ok r hacc]
    exact buttonLoop_closed ds r _ (some prof) b _ stream hne hacc1
  · intro stream pre d m post e hlen hm hacc1 he
    simp only [blueWandServer.OnMotion, ne_eq, not_true_eq_false, if_false,
      Subscribe_ok r hacc]
    exact motionLoop_failed d m post e hm pre r _ (some prof) b _ stream hlen hacc1 he
  · intro stream ds hlen hacc1
    refine ⟨?_, filterMap_motionMessage_length ds hlen⟩
    simp only [blueWandServer.OnMotion, ne_eq, not_true_eq_false, if_false,
      Subscribe_ok r hacc]
    exact motionLoop_closed ds _ stream hlen hacc1

theorem forwarding_ends_on_emit_failure_or_closure_witness :
    blueWandServer.OnButton ⟨wandServer.identifer,
        ⟨some ⟨acceptAll, []⟩, some wandProfile, false, []⟩⟩ wandServer.identifer
        (droppingStream ButtonMessage) ([[1]] ++ [0] :: [[1]]) =
      .ret (some (.fromSend "transport is closing"))
        ⟨(WandKit.Unsubscribe
            { afterSubscribe acceptAll [] wandProfile false [] BleUUIDIOUserButtonChar with
              button := (buttonMessage [0]).Pressed } BleUUIDIOUserButtonChar).state,
          (droppingStream ButtonMessage).pushAll
            ((([[1]] : List (List GoByte)) ++ [[0]]).map buttonMessage)⟩ ∧
    (blueWandServer.OnMotion ⟨wandServer.identifer,
        ⟨some ⟨acceptAll, []⟩, some wandProfile, false, []⟩⟩ wandServer.identifer
        (openStream MotionMessage)
        [[0x00, 0x05, 0x00, 0x0A, 0x00, 0x0F, 0x00, 0x14], [1, 2, 3, 4, 5, 6, 7, 8]] =
      .ret none
        ⟨afterSubscribe acceptAll [] wandProfile false [] BleUUIDSensorQuaternionsChar,
          (openStream MotionMessage).pushAll
            ([[0x00, 0x05, 0x00, 0x0A, 0x00, 0x0F, 0x00, 0x14],
              [1, 2, 3, 4, 5, 6, 7, 8]].filterMap motionMessage)⟩ ∧
      ([[0x00, 0x05, 0x00, 0x0A, 0x00, 0x0F, 0x00, 0x14],
        [1, 2, 3, 4, 5, 6, 7, 8]].filterMap motionMessage).length =
        [[0x00, 0x05, 0x00, 0x0A, 0x00, 0x0F, 0x00, 0x14],
          [(1 : GoByte), 2, 3, 4, 5, 6, 7, 8]].length) :=
  ⟨(forwarding_ends_on_emit_failure_or_closure acceptAll (fun _ _ => rfl) wandProfile false
      [] [] wandServer.identifer).1 (droppingStream ButtonMessage) [[1]] [0] [[1]]
      "transport is closing" (by decide) (by decide) (by decide),
    (forwarding_ends_on_emit_failure_or_closure acceptAll (fun _ _ => rfl) wandProfile false
      [] [] wandServer.identifer).2.2.2 (openStream MotionMessage)
      [[0x00, 0x05, 0x00, 0x0A, 0x00, 0x0F, 0x00, 0x14], [1, 2, 3, 4, 5, 6, 7, 8]]
      (by decide) (by decide)⟩

end BlueWand
